import Mathlib

/-!
Verification of the schema type-inference core of the
purview-driven-azure-ai-search-index repository.

The repository contains three scripts, each with its own copy of the
type-mapping logic:

* `src/purview_schema_inference.py` — `map_purview_to_search` (declared-type
  classifier, "inference" variant);
* `src/purview_get_schema.py` — `map_purview_to_search` (declared-type
  classifier, "get_schema" variant);
* `src/purview_schema_index_hint.py` — `AzureSearchDataType`,
  `_map_python_type_to_azure_search`, `_infer_column_types`,
  `_create_dataframe_from_metadata`.

Each definition below is a direct shallow embedding of the corresponding
Python function: Python strings become `String`, substring tests (`x in t`)
become `hasSub`, Python type objects become the closed tag set `PyType`,
pandas dtypes become `PDtype`, and DataFrame cells become `PCell`.
-/

set_option autoImplicit false

/-- The `AzureSearchDataType` enum of `src/purview_schema_index_hint.py`
(lines 25–41), in source order.  It has 15 members; there is no
`Collection(Edm.Boolean)` member.  (The enums in the other two scripts are
the 11-member subsets without the geography/complex types; their value
strings are recorded in `azureSearchTokensGetSchema` and
`azureSearchTokensInference`.) -/
inductive AzureSearchDataType where
  | EDM_STRING
  | EDM_INT32
  | EDM_INT64
  | EDM_DOUBLE
  | EDM_BOOLEAN
  | EDM_DATETIME_OFFSET
  | EDM_GEOGRAPHY_POINT
  | EDM_COMPLEX_TYPE
  | COLLECTION_EDM_STRING
  | COLLECTION_EDM_INT32
  | COLLECTION_EDM_INT64
  | COLLECTION_EDM_DOUBLE
  | COLLECTION_EDM_DATETIME_OFFSET
  | COLLECTION_EDM_GEOGRAPHY_POINT
  | COLLECTION_EDM_COMPLEX_TYPE
  deriving DecidableEq, Fintype, Repr

/-- The `value` string of each `AzureSearchDataType` member, exactly as
written in `src/purview_schema_index_hint.py` lines 27–41. -/
def wireToken : AzureSearchDataType → String
  | .EDM_STRING => "Edm.String"
  | .EDM_INT32 => "Edm.Int32"
  | .EDM_INT64 => "Edm.Int64"
  | .EDM_DOUBLE => "Edm.Double"
  | .EDM_BOOLEAN => "Edm.Boolean"
  | .EDM_DATETIME_OFFSET => "Edm.DateTimeOffset"
  | .EDM_GEOGRAPHY_POINT => "Edm.GeographyPoint"
  | .EDM_COMPLEX_TYPE => "Edm.ComplexType"
  | .COLLECTION_EDM_STRING => "Collection(Edm.String)"
  | .COLLECTION_EDM_INT32 => "Collection(Edm.Int32)"
  | .COLLECTION_EDM_INT64 => "Collection(Edm.Int64)"
  | .COLLECTION_EDM_DOUBLE => "Collection(Edm.Double)"
  | .COLLECTION_EDM_DATETIME_OFFSET => "Collection(Edm.DateTimeOffset)"
  | .COLLECTION_EDM_GEOGRAPHY_POINT => "Collection(Edm.GeographyPoint)"
  | .COLLECTION_EDM_COMPLEX_TYPE => "Collection(Edm.ComplexType)"

/-- The members of `AzureSearchDataType`, in the order they are declared in
`src/purview_schema_index_hint.py`. -/
def azureSearchDataTypeValues : List AzureSearchDataType :=
  [.EDM_STRING, .EDM_INT32, .EDM_INT64, .EDM_DOUBLE, .EDM_BOOLEAN,
   .EDM_DATETIME_OFFSET, .EDM_GEOGRAPHY_POINT, .EDM_COMPLEX_TYPE,
   .COLLECTION_EDM_STRING, .COLLECTION_EDM_INT32, .COLLECTION_EDM_INT64,
   .COLLECTION_EDM_DOUBLE, .COLLECTION_EDM_DATETIME_OFFSET,
   .COLLECTION_EDM_GEOGRAPHY_POINT, .COLLECTION_EDM_COMPLEX_TYPE]

/-- The `value` strings of the 11-member `AzureSearchDataType` enum of
`src/purview_get_schema.py` (lines 36–47), in source order. -/
def azureSearchTokensGetSchema : List String :=
  ["Edm.String", "Edm.Int32", "Edm.Int64", "Edm.Double", "Edm.Boolean",
   "Edm.DateTimeOffset", "Collection(Edm.String)", "Collection(Edm.Int32)",
   "Collection(Edm.Int64)", "Collection(Edm.Double)",
   "Collection(Edm.DateTimeOffset)"]

/-- The `value` strings of the 11-member `AzureSearchDataType` enum of
`src/purview_schema_inference.py` (lines 34–45), in source order. -/
def azureSearchTokensInference : List String :=
  ["Edm.String", "Edm.Int32", "Edm.Int64", "Edm.Double", "Edm.Boolean",
   "Edm.DateTimeOffset", "Collection(Edm.String)", "Collection(Edm.Int32)",
   "Collection(Edm.Int64)", "Collection(Edm.Double)",
   "Collection(Edm.DateTimeOffset)"]

/-- Whether a member of the enum is one of the `Collection(...)` variants. -/
def isCollectionVariant : AzureSearchDataType → Bool
  | .COLLECTION_EDM_STRING | .COLLECTION_EDM_INT32 | .COLLECTION_EDM_INT64
  | .COLLECTION_EDM_DOUBLE | .COLLECTION_EDM_DATETIME_OFFSET
  | .COLLECTION_EDM_GEOGRAPHY_POINT | .COLLECTION_EDM_COMPLEX_TYPE => true
  | _ => false

/-- `hasPref n l` — `n` is an initial segment of `l` (character lists). -/
def hasPref : List Char → List Char → Bool
  | [], _ => true
  | _ :: _, [] => false
  | a :: as, b :: bs => a == b && hasPref as bs

/-- `hasSub n l` — `n` occurs as a contiguous segment of `l`.  This is the
embedding of Python's substring test `n in l`. -/
def hasSub (needle : List Char) : List Char → Bool
  | [] => needle.isEmpty
  | b :: bs => hasPref needle (b :: bs) || hasSub needle bs

/-- Lower-case a string as a character list; embeds Python `str.lower()`
for the ASCII type-name strings this code deals in. -/
def lowerChars (s : String) : List Char :=
  s.toList.map Char.toLower

/-- Python `kw in t` where `t` is an already-lower-cased character list. -/
def containsKw (t : List Char) (kw : String) : Bool :=
  hasSub kw.toList t

/-- `map_purview_to_search` of `src/purview_schema_inference.py`
(lines 48–63).  Family checks in source order: textual, 64-bit integer,
generic integer, floating/fixed-precision, boolean, date/time, fallback. -/
def mapPurviewToSearchInference (purviewType : String) : AzureSearchDataType :=
  let t := lowerChars purviewType
  if containsKw t "char" || containsKw t "text" || containsKw t "string" then
    .EDM_STRING
  else if containsKw t "bigint" || containsKw t "int64" then
    .EDM_INT64
  else if containsKw t "int" || containsKw t "smallint" || containsKw t "tinyint" then
    .EDM_INT32
  else if containsKw t "float" || containsKw t "double" || containsKw t "real"
      || containsKw t "decimal" || containsKw t "numeric" || containsKw t "money" then
    .EDM_DOUBLE
  else if containsKw t "bit" || containsKw t "bool" || containsKw t "boolean" then
    .EDM_BOOLEAN
  else if containsKw t "date" || containsKw t "time" || containsKw t "datetime" then
    .EDM_DATETIME_OFFSET
  else
    .EDM_STRING

/-- `map_purview_to_search` of `src/purview_get_schema.py` (lines 50–75).
Takes `str | None` (`None` becomes `""` via `purview_type or ""`).  Family
checks in source order: textual, `bit`, generic integer, `bigint`,
`float`/`real`, fixed-precision, fallback.  The date/time family check is
commented out in the source, so it is absent here as well. -/
def mapPurviewToSearchGetSchema (purviewType : Option String) : AzureSearchDataType :=
  let t := lowerChars (purviewType.getD "")
  if containsKw t "varchar" || containsKw t "nvarchar" || containsKw t "char"
      || containsKw t "text" || containsKw t "ntext" || containsKw t "uniqueidentifier" then
    .EDM_STRING
  else if containsKw t "bit" then
    .EDM_BOOLEAN
  else if containsKw t "tinyint" || containsKw t "smallint" || containsKw t "int" then
    .EDM_INT32
  else if containsKw t "bigint" then
    .EDM_INT64
  else if containsKw t "float" || containsKw t "real" then
    .EDM_DOUBLE
  else if containsKw t "decimal" || containsKw t "numeric" || containsKw t "money"
      || containsKw t "smallmoney" then
    .EDM_DOUBLE
  else
    .EDM_STRING

/-- The closed set of Python type tags the classifier of
`src/purview_schema_index_hint.py` dispatches on: `str`, `object`, `int`,
`np.int32`, `np.int64`, `float`, `np.float64`, `np.float32`, `Decimal`,
`bool`, `datetime`, `date`, and `pother` for every other runtime type
(e.g. `dict`, `bytes`). -/
inductive PyType where
  | pstr
  | pobject
  | pint
  | pnpint32
  | pnpint64
  | pfloat
  | pnpfloat64
  | pnpfloat32
  | pdecimal
  | pbool
  | pdatetime
  | pdate
  | pother
  deriving DecidableEq, Repr

/-- A runtime value as it appears in a DataFrame cell or inside a
list/tuple/ndarray cell; `vother` stands for any value of an unrecognized
type. -/
inductive PyVal where
  | vstr (s : String)
  | vint (n : Int)
  | vnpint32 (n : Int)
  | vnpint64 (n : Int)
  | vfloat
  | vbool (b : Bool)
  | vdatetime
  | vdecimal
  | vother
  deriving DecidableEq, Repr

/-- Python `type(v)` restricted to the tag set above. -/
def pyTypeOf : PyVal → PyType
  | .vstr _ => .pstr
  | .vint _ => .pint
  | .vnpint32 _ => .pnpint32
  | .vnpint64 _ => .pnpint64
  | .vfloat => .pfloat
  | .vbool _ => .pbool
  | .vdatetime => .pdatetime
  | .vdecimal => .pdecimal
  | .vother => .pother

/-- A DataFrame cell: absent (`NaN`/`None`), a scalar value, or a
multi-valued container (`list`/`tuple`/`np.ndarray`). -/
inductive PCell where
  | null
  | scalar (v : PyVal)
  | container (elems : List PyVal)
  deriving DecidableEq, Repr

/-- `pd.isnull` on one cell. -/
def PCell.isNull : PCell → Bool
  | .null => true
  | _ => false

/-- Python `max` on a non-empty integer list; the `[]` case mirrors the
dead `else 0` arm of `max(sample_values) if sample_values else 0` in the
source (it is only evaluated under the `if sample_values:` guard). -/
def listMax : List Int → Int
  | [] => 0
  | x :: xs => xs.foldl max x

/-- Python `min` on a non-empty integer list; `[]` case as in `listMax`. -/
def listMin : List Int → Int
  | [] => 0
  | x :: xs => xs.foldl min x

/-- The collection branch of `_map_python_type_to_azure_search`
(`src/purview_schema_index_hint.py` lines 110–122): note that `bool` and
`Decimal` are not among the recognized element types, so they take the
final fallback to `Collection(Edm.String)`. -/
def mapCollectionType : PyType → AzureSearchDataType
  | .pstr | .pobject => .COLLECTION_EDM_STRING
  | .pint | .pnpint32 => .COLLECTION_EDM_INT32
  | .pnpint64 => .COLLECTION_EDM_INT64
  | .pfloat | .pnpfloat64 | .pnpfloat32 => .COLLECTION_EDM_DOUBLE
  | .pdatetime | .pdate => .COLLECTION_EDM_DATETIME_OFFSET
  | .pdecimal | .pbool | .pother => .COLLECTION_EDM_STRING

/-- The scalar branch of `_map_python_type_to_azure_search`
(`src/purview_schema_index_hint.py` lines 124–147), including the
Int32-range refinement over the sample (`if sample_values:` guards the
`max`/`min` computation; an empty sample falls to the trailing
`return EDM_INT32`). -/
def mapScalarType (pythonType : PyType) (sampleValues : List Int) : AzureSearchDataType :=
  match pythonType with
  | .pstr => .EDM_STRING
  | .pint | .pnpint32 =>
    if !sampleValues.isEmpty then
      if listMin sampleValues ≥ -2147483648 ∧ listMax sampleValues ≤ 2147483647 then
        .EDM_INT32
      else
        .EDM_INT64
    else
      .EDM_INT32
  | .pnpint64 => .EDM_INT64
  | .pfloat | .pnpfloat64 | .pnpfloat32 | .pdecimal => .EDM_DOUBLE
  | .pbool => .EDM_BOOLEAN
  | .pdatetime | .pdate => .EDM_DATETIME_OFFSET
  | .pobject | .pother => .EDM_STRING

/-- `_map_python_type_to_azure_search` of `src/purview_schema_index_hint.py`
(lines 89–147).  The `sample_values` argument is consumed by the source only
through `max`/`min` comparisons against the signed 32-bit bounds in the
`int`/`np.int32` scalar branch (where, coming from the builder, the samples
are integers), so it is embedded as the list of integer samples. -/
def mapPythonTypeToAzureSearch (pythonType : PyType) (isCollection : Bool)
    (sampleValues : List Int) : AzureSearchDataType :=
  if isCollection then
    mapCollectionType pythonType
  else
    mapScalarType pythonType sampleValues

/-- The pandas dtypes distinguished by `_infer_column_types` and produced by
`_create_dataframe_from_metadata`: the numpy integer widths, the nullable
extension dtypes `Int64`/`boolean`, floats, `datetime64`, pandas `string`,
`object`, and a tag for anything else. -/
inductive PDtype where
  | dstring
  | dobject
  | dint8
  | dint16
  | dint32
  | dint64
  | dnullableInt64
  | dfloat32
  | dfloat64
  | dbool
  | dnullableBool
  | ddatetime64
  | dother
  deriving DecidableEq, Repr

/-- `pd.api.types.is_string_dtype` (true for the pandas `string` dtype and
for plain `object` dtype). -/
def isStringDtype : PDtype → Bool
  | .dstring | .dobject => true
  | _ => false

/-- `pd.api.types.is_integer_dtype` (true for all numpy integer widths and
the nullable `Int64` extension dtype). -/
def isIntegerDtype : PDtype → Bool
  | .dint8 | .dint16 | .dint32 | .dint64 | .dnullableInt64 => true
  | _ => false

/-- `pd.api.types.is_float_dtype`. -/
def isFloatDtype : PDtype → Bool
  | .dfloat32 | .dfloat64 => true
  | _ => false

/-- `pd.api.types.is_bool_dtype` (true for numpy `bool` and the nullable
`boolean` extension dtype). -/
def isBoolDtype : PDtype → Bool
  | .dbool | .dnullableBool => true
  | _ => false

/-- `pd.api.types.is_datetime64_any_dtype`. -/
def isDatetime64Dtype : PDtype → Bool
  | .ddatetime64 => true
  | _ => false

/-- The dtype-driven branch of `_infer_column_types`
(`src/purview_schema_index_hint.py` lines 186–202): pick the representative
Python type of a scalar column from its pandas dtype.  Note the integer
case: plain `int` only when the dtype is exactly `'int32'`, otherwise
`np.int64`. -/
def pythonTypeOfDtype (dtype : PDtype) : PyType :=
  if isStringDtype dtype then .pstr
  else if isIntegerDtype dtype then
    (if dtype = .dint32 then .pint else .pnpint64)
  else if isFloatDtype dtype then .pfloat
  else if isBoolDtype dtype then .pbool
  else if isDatetime64Dtype dtype then .pdatetime
  else .pstr

/-- `series.dropna()` — the non-null cells in order. -/
def columnNonNull (cells : List PCell) : List PCell :=
  cells.filter (fun c => !c.isNull)

/-- `series.isnull().any()`. -/
def columnNullable (cells : List PCell) : Bool :=
  cells.any (fun c => c.isNull)

/-- Collection detection of `_infer_column_types` (lines 171–175): true iff
the first non-null cell is a `list`/`tuple`/`np.ndarray`. -/
def columnIsCollection (cells : List PCell) : Bool :=
  match (columnNonNull cells).head? with
  | some (.container _) => true
  | _ => false

/-- Representative Python type of a column (`_infer_column_types`
lines 177–202): for a collection column the type of the first element of
the first non-null container (defaulting to `str` when that container is
empty); otherwise the dtype-driven choice.  The inner wildcard arm is
unreachable: `columnIsCollection` guarantees the head is a container. -/
def columnPythonType (dtype : PDtype) (cells : List PCell) : PyType :=
  if columnIsCollection cells && !(columnNonNull cells).isEmpty then
    match (columnNonNull cells).head? with
    | some (.container elems) => ((elems.head?.map pyTypeOf).getD .pstr)
    | _ => .pstr
  else
    pythonTypeOfDtype dtype

/-- `non_null_values.head(10).tolist()`. -/
def columnSampleCells (cells : List PCell) : List PCell :=
  (columnNonNull cells).take 10

/-- The integer view of the collected sample cells, as consumed by the
`max`/`min` range refinement of `mapPythonTypeToAzureSearch` (the only
place the source reads the samples; when that branch runs from the builder
the column is an integer column, so this list is the whole sample). -/
def intSamples (cells : List PCell) : List Int :=
  cells.filterMap fun c =>
    match c with
    | .scalar (.vint n) => some n
    | .scalar (.vnpint32 n) => some n
    | .scalar (.vnpint64 n) => some n
    | _ => none

/-- The `ColumnTypeInfo` dataclass of `src/purview_schema_index_hint.py`
(lines 43–51). -/
structure ColumnTypeInfo where
  columnName : String
  pythonType : PyType
  nullable : Bool
  isCollection : Bool
  azureSearchType : AzureSearchDataType
  sampleValues : List PCell
  deriving DecidableEq, Repr

/-- The per-column body of `_infer_column_types`
(`src/purview_schema_index_hint.py` lines 161–218). -/
def inferColumn (name : String) (dtype : PDtype) (cells : List PCell) : ColumnTypeInfo :=
  { columnName := name
    pythonType := columnPythonType dtype cells
    nullable := columnNullable cells
    isCollection := columnIsCollection cells
    azureSearchType :=
      mapPythonTypeToAzureSearch (columnPythonType dtype cells)
        (columnIsCollection cells) (intSamples (columnSampleCells cells))
    sampleValues := columnSampleCells cells }

/-- `_infer_column_types` over a whole DataFrame, one entry per column in
order. -/
def inferColumnTypes (columns : List (String × PDtype × List PCell)) : List ColumnTypeInfo :=
  columns.map fun c => inferColumn c.1 c.2.1 c.2.2

/-- One element of the `columns_info` list assembled in
`analyze_table_schema` (`src/purview_schema_index_hint.py` lines 339–346):
the column name, the declared type string (`""` when absent, per
`col_info.get("data_type", "")`), and the catalog nullability flag
(collected with default `True`). -/
structure ColumnMeta where
  name : String
  dataType : String
  isNullable : Bool
  deriving DecidableEq, Repr

/-- The dtype assigned by `_create_dataframe_from_metadata`
(`src/purview_schema_index_hint.py` lines 642–656) from a declared type
string: any `int`/`integer` match gets the nullable `Int64` extension
dtype, floats `float64`, booleans the nullable `boolean` dtype, date/time
`datetime64`, everything else the pandas `string` dtype. -/
def metadataDtype (dataType : String) : PDtype :=
  let dt := lowerChars dataType
  if containsKw dt "int" || containsKw dt "integer" then .dnullableInt64
  else if containsKw dt "float" || containsKw dt "double" || containsKw dt "decimal" then .dfloat64
  else if containsKw dt "bool" || containsKw dt "bit" then .dnullableBool
  else if containsKw dt "date" || containsKw dt "time" then .ddatetime64
  else .dstring

/-- `_create_dataframe_from_metadata` (lines 624–659): an empty DataFrame —
columns with truthy names, each with its metadata-derived dtype and no
rows.  The collected `is_nullable` flag is not consulted. -/
def createDataFrameFromMetadata (columnsInfo : List ColumnMeta) : List (String × PDtype) :=
  (columnsInfo.filter (fun c => c.name ≠ "")).map
    (fun c => (c.name, metadataDtype c.dataType))

/-- Modelled from the spec: the orchestration (`process_data_sources`) that
feeds the metadata-only DataFrame of `_create_dataframe_from_metadata` into
`_infer_column_types` is invoked in `main` but its definition is not in the
sources; per the spec's metadata-only fallback, each metadata column is
classified by running the column inference on the empty typed frame. -/
def classifyFromMetadata (columnsInfo : List ColumnMeta) : List ColumnTypeInfo :=
  (createDataFrameFromMetadata columnsInfo).map fun c => inferColumn c.1 c.2 []

section HelperLemmas

lemma le_foldl_max (xs : List Int) : ∀ a : Int, a ≤ xs.foldl max a := by
  induction xs with
  | nil => intro a; exact le_refl a
  | cons x xs ih => intro a; exact le_trans (le_max_left a x) (ih (max a x))

lemma mem_le_foldl_max (xs : List Int) : ∀ (a x : Int), x ∈ xs → x ≤ xs.foldl max a := by
  induction xs with
  | nil => intro a x hx; cases hx
  | cons y ys ih =>
    intro a x hx
    rw [List.mem_cons] at hx
    rcases hx with rfl | h
    · exact le_trans (le_max_right a x) (le_foldl_max ys (max a x))
    · exact ih (max a y) x h

lemma le_listMax_of_mem {x : Int} {l : List Int} (h : x ∈ l) : x ≤ listMax l := by
  cases l with
  | nil => cases h
  | cons a xs =>
    rw [List.mem_cons] at h
    rcases h with rfl | h
    · exact le_foldl_max xs _
    · exact mem_le_foldl_max xs a x h

lemma foldl_min_le (xs : List Int) : ∀ a : Int, xs.foldl min a ≤ a := by
  induction xs with
  | nil => intro a; exact le_refl a
  | cons x xs ih => intro a; exact le_trans (ih (min a x)) (min_le_left a x)

lemma foldl_min_le_mem (xs : List Int) : ∀ (a x : Int), x ∈ xs → xs.foldl min a ≤ x := by
  induction xs with
  | nil => intro a x hx; cases hx
  | cons y ys ih =>
    intro a x hx
    rw [List.mem_cons] at hx
    rcases hx with rfl | h
    · exact le_trans (foldl_min_le ys (min a x)) (min_le_right a x)
    · exact ih (min a y) x h

lemma listMin_le_of_mem {x : Int} {l : List Int} (h : x ∈ l) : listMin l ≤ x := by
  cases l with
  | nil => cases h
  | cons a xs =>
    rw [List.mem_cons] at h
    rcases h with rfl | h
    · exact foldl_min_le xs _
    · exact foldl_min_le_mem xs a x h

/-- The two branches of the scalar integer range refinement, stated for the
`int` tag; `np.int32` reduces to the same expression. -/
lemma int_branch_spec (sv : List Int) :
    (sv ≠ [] → listMin sv ≥ -2147483648 → listMax sv ≤ 2147483647 →
        mapPythonTypeToAzureSearch .pint false sv = .EDM_INT32) ∧
    (∀ x : Int, x ∈ sv → (x < -2147483648 ∨ 2147483647 < x) →
        mapPythonTypeToAzureSearch .pint false sv = .EDM_INT64) ∧
    mapPythonTypeToAzureSearch .pint false [] = .EDM_INT32 := by
  refine ⟨fun hne hmin hmax => ?_, fun x hx hout => ?_, rfl⟩
  · have h1 : sv.isEmpty = false := by
      cases sv with
      | nil => exact absurd rfl hne
      | cons a l => rfl
    simp [mapPythonTypeToAzureSearch, mapScalarType, h1, hmin, hmax]
  · have hne : sv ≠ [] := by rintro rfl; simp at hx
    have h1 : sv.isEmpty = false := by
      cases sv with
      | nil => exact absurd rfl hne
      | cons a l => rfl
    have hcond : ¬(listMin sv ≥ -2147483648 ∧ listMax sv ≤ 2147483647) := by
      rcases hout with hlt | hgt
      · rintro ⟨hmin, -⟩
        have := listMin_le_of_mem hx
        omega
      · rintro ⟨-, hmax⟩
        have := le_listMax_of_mem hx
        omega
    simp [mapPythonTypeToAzureSearch, mapScalarType, h1, hcond]

lemma isCollectionVariant_mapPythonType (pt : PyType) (b : Bool) (sv : List Int) :
    isCollectionVariant (mapPythonTypeToAzureSearch pt b sv) = b := by
  cases b <;> cases pt <;>
    first
      | rfl
      | (simp only [mapPythonTypeToAzureSearch, mapScalarType];
         split_ifs <;> first | rfl | contradiction)

lemma columnNonNull_cons_container (elems : List PyVal) (rest : List PCell) :
    columnNonNull (PCell.container elems :: rest)
      = PCell.container elems :: columnNonNull rest := by
  simp [columnNonNull, List.filter_cons, PCell.isNull]

lemma columnIsCollection_cons_container (elems : List PyVal) (rest : List PCell) :
    columnIsCollection (PCell.container elems :: rest) = true := by
  rw [columnIsCollection, columnNonNull_cons_container]
  rfl

/-- A column whose first non-null cell is a container is inferred as a
collection, its representative type is the first element of that very
container (textual when the container is empty), and its search type is the
collection branch of the classifier at that representative. -/
lemma inferColumn_container_head (name : String) (dtype : PDtype)
    (elems : List PyVal) (rest : List PCell) :
    (inferColumn name dtype (PCell.container elems :: rest)).isCollection = true ∧
    (inferColumn name dtype (PCell.container elems :: rest)).pythonType
      = ((elems.head?.map pyTypeOf).getD .pstr) ∧
    (inferColumn name dtype (PCell.container elems :: rest)).azureSearchType
      = mapPythonTypeToAzureSearch ((elems.head?.map pyTypeOf).getD .pstr) true
          (intSamples (columnSampleCells (PCell.container elems :: rest))) := by
  have hpt : columnPythonType dtype (PCell.container elems :: rest)
      = ((elems.head?.map pyTypeOf).getD .pstr) := by
    rw [columnPythonType, columnIsCollection_cons_container, columnNonNull_cons_container]
    rfl
  refine ⟨columnIsCollection_cons_container elems rest, ?_, ?_⟩
  · simpa [inferColumn] using hpt
  · simp [inferColumn, hpt, columnIsCollection_cons_container]

end HelperLemmas

/-- Claim C1 (code_bug evidence): the spec says every declared type
containing `bigint` classifies to `Int64`, never `Int32`, with the 64-bit
family checked before the generic `int` family.  The inference variant does
this, but in `map_purview_to_search` of `src/purview_get_schema.py` the
`tinyint/smallint/int` check precedes the `bigint` check, and `"int"` is a
substring of `"bigint"`, so `"bigint"` (any casing) yields `Edm.Int32`
there and the function's `Edm.Int64` branch is unreachable. -/
theorem c1_bigint_divergence :
    mapPurviewToSearchGetSchema (some "bigint") = .EDM_INT32 ∧
    mapPurviewToSearchGetSchema (some "BIGINT") = .EDM_INT32 ∧
    mapPurviewToSearchInference "bigint" = .EDM_INT64 ∧
    mapPurviewToSearchInference "int64" = .EDM_INT64 := by decide

/-- Claim C2: classification is total and falls back to `String` (or
`Collection(String)` for collections): `None` and unrecognized declared
types map to `Edm.String` in both declared-type variants; an unrecognized
Python type maps to `Edm.String` scalar and `Collection(Edm.String)` as a
collection element; and a column with no declared evidence, no samples and
no collection flag classifies to `Edm.String`. -/
theorem c2_total_fallback :
    mapPurviewToSearchGetSchema none = .EDM_STRING ∧
    mapPurviewToSearchGetSchema (some "xyz") = .EDM_STRING ∧
    mapPurviewToSearchInference "xyz" = .EDM_STRING ∧
    (∀ sv : List Int, mapPythonTypeToAzureSearch .pother false sv = .EDM_STRING) ∧
    (∀ sv : List Int, mapPythonTypeToAzureSearch .pother true sv = .COLLECTION_EDM_STRING) ∧
    mapPythonTypeToAzureSearch .pstr false [] = .EDM_STRING ∧
    (inferColumn "c" .dobject []).azureSearchType = .EDM_STRING :=
  ⟨by decide, by decide, by decide, fun sv => rfl, fun sv => rfl, rfl, by decide⟩

/-- Claim C3: for a scalar integer column classified by sample values, a
non-empty sample whose minimum and maximum lie within the signed 32-bit
range yields `Edm.Int32`; any single out-of-range sample value forces
`Edm.Int64` for the whole column; and an empty sample is special-cased to
`Edm.Int32` without computing `max`/`min`. -/
theorem c3_int_range_refinement (pt : PyType)
    (hpt : pt = PyType.pint ∨ pt = PyType.pnpint32) (sv : List Int) :
    (sv ≠ [] → listMin sv ≥ -2147483648 → listMax sv ≤ 2147483647 →
        mapPythonTypeToAzureSearch pt false sv = .EDM_INT32) ∧
    (∀ x : Int, x ∈ sv → (x < -2147483648 ∨ 2147483647 < x) →
        mapPythonTypeToAzureSearch pt false sv = .EDM_INT64) ∧
    mapPythonTypeToAzureSearch pt false [] = .EDM_INT32 := by
  have key := int_branch_spec sv
  rcases hpt with rfl | rfl
  · exact key
  · exact key

/-- Witness for C3 at concrete samples: `[1, 2, 3000000000]` (one value
above the 32-bit range) flips the column to `Edm.Int64`, while `[1, 2, 3]`
stays `Edm.Int32`. -/
theorem c3_int_range_refinement_witness :
    mapPythonTypeToAzureSearch .pint false [1, 2, 3000000000] = .EDM_INT64 ∧
    mapPythonTypeToAzureSearch .pint false [1, 2, 3] = .EDM_INT32 := by
  constructor
  · exact (c3_int_range_refinement .pint (Or.inl rfl) [1, 2, 3000000000]).2.1
      3000000000 (by decide) (by decide)
  · exact (c3_int_range_refinement .pint (Or.inl rfl) [1, 2, 3]).1
      (by decide) (by decide) (by decide)

/-- Claim C4 counterexample: the metadata-only fallback classifies a
declared `"int"` column to `Edm.Int64`, not `Edm.Int32` — the builder sets
the pandas nullable `Int64` dtype for every `int`-family declared type, and
`_infer_column_types` maps every integer dtype other than exactly `'int32'`
to `np.int64`.  Moreover the produced `nullable` is `False` (computed from
the empty frame), not the catalog flag (`True` here). -/
theorem c4_metadata_claim_refuted :
    (classifyFromMetadata [⟨"c", "int", true⟩]).map (fun c => c.azureSearchType)
        = [.EDM_INT64] ∧
    (classifyFromMetadata [⟨"c", "int", true⟩]).map (fun c => c.nullable)
        = [false] := by decide

/-- Claim C4 as amended: in the metadata-only fallback, every column whose
declared type string contains `"int"` (case-insensitively) gets the pandas
nullable `Int64` dtype and therefore classifies to `Edm.Int64` (never
`Edm.Int32`), with empty `sampleValues`; `nullable` comes out `false` from
the empty frame regardless of the catalog nullability flag, which is
collected but never consulted. -/
theorem c4_metadata_fallback_amended (name dataTypeStr : String) (flag : Bool)
    (hname : name ≠ "")
    (hint : containsKw (lowerChars dataTypeStr) "int" = true) :
    classifyFromMetadata [⟨name, dataTypeStr, flag⟩]
      = [⟨name, .pnpint64, false, false, .EDM_INT64, []⟩] := by
  have hdt : metadataDtype dataTypeStr = .dnullableInt64 := by
    rw [metadataDtype]
    simp [hint]
  simp [classifyFromMetadata, createDataFrameFromMetadata, List.filter_cons, hname, hdt,
        inferColumn, columnPythonType, columnIsCollection, columnNonNull, columnNullable,
        columnSampleCells, intSamples, pythonTypeOfDtype, isStringDtype, isIntegerDtype,
        mapPythonTypeToAzureSearch, mapScalarType]

/-- Witness for the amended C4 at a concrete metadata column: declared
`"bigint"` with catalog nullability `false` produces `Edm.Int64`, empty
samples, and `nullable = false`. -/
theorem c4_metadata_fallback_amended_witness :
    classifyFromMetadata [⟨"id", "bigint", false⟩]
      = [⟨"id", .pnpint64, false, false, .EDM_INT64, []⟩] :=
  c4_metadata_fallback_amended "id" "bigint" false (by decide) (by decide)

/-- Claim C5 counterexample: (1) the representative element comes from the
first NON-NULL container, not the first non-empty one — with cells
`[[], [np.int64 5]]` the code defaults to textual and returns
`Collection(Edm.String)`, where the claim demands `Collection(Edm.Int64)`;
(2) integer elements are classified by type tag, not value range — a plain
`int` element of 3000000000 (outside 32-bit) still gives
`Collection(Edm.Int32)`, where the claim demands `Collection(Edm.Int64)`;
(3) a `Decimal` element gives `Collection(Edm.String)`, where the claim's
"floating/decimal element" demands `Collection(Edm.Double)`. -/
theorem c5_representative_refuted :
    (inferColumn "c" .dobject
        [PCell.container [], PCell.container [PyVal.vnpint64 5]]).azureSearchType
      = .COLLECTION_EDM_STRING ∧
    (inferColumn "c" .dobject
        [PCell.container [PyVal.vint 3000000000]]).azureSearchType
      = .COLLECTION_EDM_INT32 ∧
    mapPythonTypeToAzureSearch .pdecimal true [] = .COLLECTION_EDM_STRING := by
  decide

/-- Claim C5 as amended: for collection evidence the result is determined
solely by the representative element's type tag (sample values are
ignored): textual/`object` → `Collection(String)`, `int`/`np.int32` →
`Collection(Int32)` regardless of magnitude, `np.int64` →
`Collection(Int64)`, `float`/`np.float64`/`np.float32` →
`Collection(Double)` (`Decimal` is NOT recognized here and falls back to
`Collection(String)`), `datetime`/`date` → `Collection(DateTimeOffset)`,
anything unrecognized → `Collection(String)`; and the builder takes the
representative from the first element of the first non-null container,
defaulting to textual when that container is empty. -/
theorem c5_collection_element_mapping :
    (∀ (pt : PyType) (sv sv2 : List Int),
        mapPythonTypeToAzureSearch pt true sv = mapPythonTypeToAzureSearch pt true sv2) ∧
    (∀ sv : List Int,
        mapPythonTypeToAzureSearch .pstr true sv = .COLLECTION_EDM_STRING ∧
        mapPythonTypeToAzureSearch .pobject true sv = .COLLECTION_EDM_STRING ∧
        mapPythonTypeToAzureSearch .pint true sv = .COLLECTION_EDM_INT32 ∧
        mapPythonTypeToAzureSearch .pnpint32 true sv = .COLLECTION_EDM_INT32 ∧
        mapPythonTypeToAzureSearch .pnpint64 true sv = .COLLECTION_EDM_INT64 ∧
        mapPythonTypeToAzureSearch .pfloat true sv = .COLLECTION_EDM_DOUBLE ∧
        mapPythonTypeToAzureSearch .pnpfloat64 true sv = .COLLECTION_EDM_DOUBLE ∧
        mapPythonTypeToAzureSearch .pnpfloat32 true sv = .COLLECTION_EDM_DOUBLE ∧
        mapPythonTypeToAzureSearch .pdatetime true sv = .COLLECTION_EDM_DATETIME_OFFSET ∧
        mapPythonTypeToAzureSearch .pdate true sv = .COLLECTION_EDM_DATETIME_OFFSET ∧
        mapPythonTypeToAzureSearch .pdecimal true sv = .COLLECTION_EDM_STRING ∧
        mapPythonTypeToAzureSearch .pbool true sv = .COLLECTION_EDM_STRING ∧
        mapPythonTypeToAzureSearch .pother true sv = .COLLECTION_EDM_STRING) ∧
    (∀ (name : String) (dtype : PDtype) (elems : List PyVal) (rest : List PCell),
        (inferColumn name dtype (PCell.container elems :: rest)).isCollection = true ∧
        (inferColumn name dtype (PCell.container elems :: rest)).pythonType
          = ((elems.head?.map pyTypeOf).getD .pstr)) :=
  ⟨fun pt sv sv2 => by cases pt <;> rfl,
   fun sv => ⟨rfl, rfl, rfl, rfl, rfl, rfl, rfl, rfl, rfl, rfl, rfl, rfl, rfl⟩,
   fun name dtype elems rest =>
     ⟨(inferColumn_container_head name dtype elems rest).1,
      (inferColumn_container_head name dtype elems rest).2.1⟩⟩

/-- Claim C6 counterexample: the two declared-type variants do NOT agree
everywhere outside the date/time family: on `"double"` the inference
variant returns `Edm.Double` while the get_schema variant returns
`Edm.String`, and on `"bool"` they return `Edm.Boolean` versus
`Edm.String` — disagreements in which neither side is `DateTimeOffset`. -/
theorem c6_variants_agree_refuted :
    mapPurviewToSearchInference "double" = .EDM_DOUBLE ∧
    mapPurviewToSearchGetSchema (some "double") = .EDM_STRING ∧
    mapPurviewToSearchInference "bool" = .EDM_BOOLEAN ∧
    mapPurviewToSearchGetSchema (some "bool") = .EDM_STRING := by decide

/-- Claim C6 as amended: the date/time-family strings `date`, `time`,
`datetime`, `datetimeoffset` map to `Edm.DateTimeOffset` in the inference
variant and fall through to `Edm.String` in the get_schema variant (whose
date/time rule is commented out); but this is not the only divergence
between the variants — they also disagree on `bigint`/`int64`
(`Int64` vs `Int32`), on `double` (`Double` vs `String`) and on
`bool`/`boolean` (`Boolean` vs `String`). -/
theorem c6_datetime_family_divergence :
    mapPurviewToSearchInference "date" = .EDM_DATETIME_OFFSET ∧
    mapPurviewToSearchInference "time" = .EDM_DATETIME_OFFSET ∧
    mapPurviewToSearchInference "datetime" = .EDM_DATETIME_OFFSET ∧
    mapPurviewToSearchInference "datetimeoffset" = .EDM_DATETIME_OFFSET ∧
    mapPurviewToSearchGetSchema (some "date") = .EDM_STRING ∧
    mapPurviewToSearchGetSchema (some "time") = .EDM_STRING ∧
    mapPurviewToSearchGetSchema (some "datetime") = .EDM_STRING ∧
    mapPurviewToSearchGetSchema (some "datetimeoffset") = .EDM_STRING ∧
    mapPurviewToSearchInference "int64" = .EDM_INT64 ∧
    mapPurviewToSearchGetSchema (some "int64") = .EDM_INT32 ∧
    mapPurviewToSearchInference "boolean" = .EDM_BOOLEAN ∧
    mapPurviewToSearchGetSchema (some "boolean") = .EDM_STRING := by decide

/-- Claim C7: classification produces exactly one field type per column
(it is a function), and a `Collection(...)` variant appears exactly when
the evidence is multi-valued: with `isCollection = false` the classifier
always returns a non-Collection type, and for every inferred column the
produced type is a Collection variant if and only if the column was
detected as a collection. -/
theorem c7_collection_iff_multivalued :
    (∀ (pt : PyType) (sv : List Int),
        isCollectionVariant (mapPythonTypeToAzureSearch pt false sv) = false) ∧
    (∀ (name : String) (dtype : PDtype) (cells : List PCell),
        isCollectionVariant ((inferColumn name dtype cells).azureSearchType)
          = (inferColumn name dtype cells).isCollection) :=
  ⟨fun pt sv => isCollectionVariant_mapPythonType pt false sv,
   fun _ _ _ => isCollectionVariant_mapPythonType _ _ _⟩

/-- Claim C8 counterexample: the `AzureSearchDataType` enumeration of
`src/purview_schema_index_hint.py` has 15 members, not the 16 of the spec's
§3 — no member serializes to `"Collection(Edm.Boolean)"`. -/
theorem c8_sixteen_values_refuted :
    Fintype.card AzureSearchDataType = 15 ∧
    "Collection(Edm.Boolean)" ∉ azureSearchDataTypeValues.map wireToken := by
  decide

/-- Claim C8 as amended: every member of the enumeration serializes to
exactly the literal wire token of the §6 table (`Edm.X` for scalars,
`Collection(Edm.X)` for collection variants), but the enumeration has 15
values, not 16: `Collection(Edm.Boolean)` is absent; and the enums of the
other two scripts have only 11 values each (also lacking the
geography-point and complex types). -/
theorem c8_wire_tokens :
    azureSearchDataTypeValues.map wireToken =
      ["Edm.String", "Edm.Int32", "Edm.Int64", "Edm.Double", "Edm.Boolean",
       "Edm.DateTimeOffset", "Edm.GeographyPoint", "Edm.ComplexType",
       "Collection(Edm.String)", "Collection(Edm.Int32)", "Collection(Edm.Int64)",
       "Collection(Edm.Double)", "Collection(Edm.DateTimeOffset)",
       "Collection(Edm.GeographyPoint)", "Collection(Edm.ComplexType)"] ∧
    azureSearchDataTypeValues.length = 15 ∧
    (∀ t : AzureSearchDataType, t ∈ azureSearchDataTypeValues) ∧
    azureSearchTokensGetSchema.length = 11 ∧
    azureSearchTokensInference = azureSearchTokensGetSchema := by
  refine ⟨rfl, rfl, ?_, rfl, rfl⟩
  intro t
  cases t <;> decide

/-- Claim C9: a collection whose representative element is a boolean
classifies to `Collection(Edm.String)` — the collection branch recognizes
only textual, integer, floating and date/time element tags — and no member
of the output enumeration serializes to `"Collection(Edm.Boolean)"`, so no
classification ever produces a boolean-collection type. -/
theorem c9_bool_collection_to_string :
    (∀ sv : List Int,
        mapPythonTypeToAzureSearch .pbool true sv = .COLLECTION_EDM_STRING) ∧
    (∀ (name : String) (dtype : PDtype) (b : Bool) (elemsRest : List PyVal)
        (rest : List PCell),
        (inferColumn name dtype
            (PCell.container (PyVal.vbool b :: elemsRest) :: rest)).azureSearchType
          = .COLLECTION_EDM_STRING) ∧
    (∀ t : AzureSearchDataType, wireToken t ≠ "Collection(Edm.Boolean)") :=
  ⟨fun sv => rfl,
   fun name dtype b elemsRest rest => by
     have h := (inferColumn_container_head name dtype (PyVal.vbool b :: elemsRest) rest).2.2
     simpa using h,
   by intro t; cases t <;> decide⟩

/-- Claim C10: in the tabular-sample path the builder picks the plain-`int`
representative (the only one subject to the 32-bit range check) exactly
when the column dtype is `'int32'`; every other integer dtype — including
pandas' default 64-bit dtype — gets `np.int64`, so such a column classifies
to `Edm.Int64` even when every observed value fits the signed 32-bit
range. -/
theorem c10_int64_dtype_dominates (dtype : PDtype)
    (hdt : isIntegerDtype dtype = true) (h32 : dtype ≠ PDtype.dint32) :
    pythonTypeOfDtype dtype = .pnpint64 ∧
    (∀ sv : List Int,
        mapPythonTypeToAzureSearch (pythonTypeOfDtype dtype) false sv = .EDM_INT64) ∧
    (∀ (name : String) (vs : List Int),
        (inferColumn name dtype
            (vs.map (fun v => PCell.scalar (PyVal.vnpint64 v)))).azureSearchType
          = .EDM_INT64) := by
  have hpt : pythonTypeOfDtype dtype = .pnpint64 := by
    cases dtype <;>
      simp_all [pythonTypeOfDtype, isIntegerDtype, isStringDtype, isFloatDtype,
                isBoolDtype, isDatetime64Dtype]
  refine ⟨hpt, fun sv => by rw [hpt]; rfl, fun name vs => ?_⟩
  cases vs with
  | nil =>
    simp [inferColumn, columnPythonType, columnIsCollection, columnNonNull, hpt,
          mapPythonTypeToAzureSearch, mapScalarType]
  | cons v vs2 =>
    simp [inferColumn, columnPythonType, columnIsCollection, columnNonNull,
          columnSampleCells, intSamples, PCell.isNull, hpt,
          mapPythonTypeToAzureSearch, mapScalarType]

/-- Witness for C10 at the pandas default integer dtype `int64` with
samples well inside the 32-bit range: the column still classifies to
`Edm.Int64`. -/
theorem c10_int64_dtype_dominates_witness :
    isIntegerDtype PDtype.dint64 = true ∧
    (inferColumn "c" PDtype.dint64
        [PCell.scalar (PyVal.vnpint64 1), PCell.scalar (PyVal.vnpint64 2)]).azureSearchType
      = .EDM_INT64 :=
  ⟨by decide, by
    have h := (c10_int64_dtype_dominates PDtype.dint64 (by decide) (by decide)).2.2 "c" [1, 2]
    simpa using h⟩
